import Mathlib

/-!
Shallow embedding of the EtelGo streaming-ETL pipeline core, translated from
the Go sources `processors/processors.go`, `config/config.go` and
`consumer/consumer.go`.  Dynamic `interface{}` values are modelled by the
`DynValue` type covering the value shapes the processors inspect (strings,
integers, booleans, times and one level of string-keyed maps, as used for the
`params` option of the transform processor).  Go maps are modelled as
association lists observed only through lookup and assignment.  Functions from
the Go standard library (`time.Parse`, `time.ParseDuration`) are not part of
the repository and are taken as parameters of the embedded functions.
-/

namespace EtelGo

/-- A Go `(value, error)` result.  `ok` is a normal return with a nil error,
`error` a non-nil error return, and `panic` an unrecovered runtime panic
(e.g. a failed unchecked type assertion). -/
inductive GoResult (α : Type) where
  | ok (a : α)
  | error (e : String)
  | panic (e : String)
deriving DecidableEq, Repr

/-- True exactly when the result is a normal return. -/
def GoResult.isOk {α : Type} : GoResult α → Bool
  | .ok _ => true
  | _ => false

/-- True exactly when the result is a non-nil error return. -/
def GoResult.isError {α : Type} : GoResult α → Bool
  | .error _ => true
  | _ => false

/-- Wrap an integer into the signed 64-bit range, as Go `int64` arithmetic
does on overflow. -/
def wrap64 (n : Int) : Int :=
  (n + 2 ^ 63) % 2 ^ 64 - 2 ^ 63

/-- Primitive dynamic values stored in option maps and record fields. -/
inductive PrimValue where
  | str (s : String)
  | int (n : Int)
  | int64 (n : Int)
  | bool (b : Bool)
  | time (ns : Int)
deriving DecidableEq, Repr

/-- A dynamically typed Go `interface{}` value: a primitive, or a
`map[string]interface{}` whose entries are primitives (the shape the
transform processor's `params` option uses). -/
inductive DynValue where
  | prim (v : PrimValue)
  | map (m : List (String × PrimValue))
deriving DecidableEq, Repr

/-- A `map[string]interface{}` as it appears in `ProcessorConfig.Config`. -/
abbrev GoMap : Type := List (String × DynValue)

/-- Lookup in a dynamic map: `v, ok := m[k]`. -/
def lookupD : GoMap → String → Option DynValue
  | [], _ => none
  | (k', v) :: rest, k => if k' = k then some v else lookupD rest k

/-- Lookup in a nested primitive-valued map such as `params`. -/
def lookupP : List (String × PrimValue) → String → Option PrimValue
  | [], _ => none
  | (k', v) :: rest, k => if k' = k then some v else lookupP rest k

/-- Go map assignment `m[k] = v`: replace the entry for `k`, or add it. -/
def setFieldD : GoMap → String → DynValue → GoMap
  | [], k, v => [(k, v)]
  | (k', v') :: rest, k, v =>
      if k' = k then (k, v) :: rest else (k', v') :: setFieldD rest k v

/-- The string read by the recurring Go configuration idiom
`if val, ok := cfg[k]; ok { if s, ok := val.(string); ok { f = s } }`
(with zero value `""` when the key is missing or not a string). -/
def fieldStr (cfg : GoMap) (k : String) : String :=
  match lookupD cfg k with
  | some (.prim (.str s)) => s
  | _ => ""

/-- `consumer.Message`: one record in flight.  `key`/`value` are raw byte
sequences, `timestamp` a point in time (`time.Time`, modelled as an integer
number of nanoseconds), `keyFields`/`valueFields` the deserialized dynamic
working views. -/
structure Message where
  key : List Nat
  value : List Nat
  topic : String
  partition : Int
  offset : Int
  timestamp : Int
  headers : List (String × String)
  keyFields : GoMap
  valueFields : GoMap
deriving DecidableEq, Repr

/-- `Processor.Process` returns `(*consumer.Message, error)`:
`.ok (some m)` is a forwarded record, `.ok none` the drop sentinel
`(nil, nil)`, `.error e` a processing failure. -/
abbrev ProcOut : Type := GoResult (Option Message)

/-! ## timestamp_replay processor (`processors.go`) -/

/-- `TimestampReplayProcessor`: either a target timestamp string (option 1)
or an offset plus a unit (option 2). -/
structure TimestampReplayProcessor where
  targetTimestamps : Option String
  offset : Option Int
  unit : Option String
deriving DecidableEq, Repr

/-- `NewTimestampReplayProcessor`: reads `target_timestamps` (a string),
`offset` (an `int64`) and `unit` (a string) from the option map; absent or
ill-typed options are silently skipped and the constructor never fails. -/
def NewTimestampReplayProcessor (cfg : GoMap) : GoResult TimestampReplayProcessor :=
  let target : Option String :=
    match lookupD cfg "target_timestamps" with
    | some (.prim (.str s)) => some s
    | _ => none
  let off : Option Int :=
    match lookupD cfg "offset" with
    | some (.prim (.int64 n)) => some n
    | _ => none
  let unit : Option String :=
    match lookupD cfg "unit" with
    | some (.prim (.str s)) => some s
    | _ => none
  .ok { targetTimestamps := target, offset := off, unit := unit }

/-- `TimestampReplayProcessor.Process`.  `parse` stands for
`time.Parse(time.RFC3339, ·)` from the Go standard library, returning the
parsed instant in nanoseconds or `none` on error.  The duration for option 2
is computed in `int64` nanoseconds with Go wrap-around semantics. -/
def TimestampReplayProcessor.process (parse : String → Option Int)
    (p : TimestampReplayProcessor) (msg : Message) : ProcOut :=
  match p.targetTimestamps with
  | some ts =>
      match parse ts with
      | none => .error "failed to parse target timestamp"
      | some t => .ok (some { msg with timestamp := t })
  | none =>
      match p.offset, p.unit with
      | some o, some u =>
          if u = "seconds" then
            .ok (some { msg with timestamp := msg.timestamp + wrap64 (o * 1000000000) })
          else if u = "minutes" then
            .ok (some { msg with timestamp := msg.timestamp + wrap64 (o * 60000000000) })
          else if u = "hours" then
            .ok (some { msg with timestamp := msg.timestamp + wrap64 (o * 3600000000000) })
          else
            .error "invalid time unit for offset"
      | _, _ => .ok (some msg)

/-! ## drop processor (`processors.go`) -/

/-- `DropProcessor`: drops records whose configured field matches the
filter criteria. -/
structure DropProcessor where
  filterCriteria : String
  fieldName : String
deriving DecidableEq, Repr

/-- `NewDropProcessor`: reads the string options `filter_criteria` and
`field_name`; missing or non-string options leave the zero value `""` and
the constructor never fails. -/
def NewDropProcessor (cfg : GoMap) : GoResult DropProcessor :=
  .ok { filterCriteria := fieldStr cfg "filter_criteria"
        fieldName := fieldStr cfg "field_name" }

/-- `DropProcessor.Process`: when both options are non-empty and
`valueFields[fieldName]` is a string equal to the criteria, return the drop
sentinel `(nil, nil)`; otherwise return the record unchanged. -/
def DropProcessor.process (p : DropProcessor) (msg : Message) : ProcOut :=
  if p.fieldName ≠ "" ∧ p.filterCriteria ≠ "" then
    match lookupD msg.valueFields p.fieldName with
    | some (.prim (.str s)) =>
        if s = p.filterCriteria then .ok none else .ok (some msg)
    | _ => .ok (some msg)
  else
    .ok (some msg)

/-! ## transform processor (`processors.go`) -/

/-- `ValidTransformOperations` membership. -/
def validTransformOp (op : String) : Bool :=
  op = "uppercase" || op = "lowercase" || op = "add_prefix" || op = "add_suffix"

/-- Model of `strings.ToUpper` (character-wise upper-casing; agrees with the
Go function on ASCII input). -/
def goToUpper (s : String) : String :=
  String.mk (s.data.map Char.toUpper)

/-- Model of `strings.ToLower` (character-wise lower-casing; agrees with the
Go function on ASCII input). -/
def goToLower (s : String) : String :=
  String.mk (s.data.map Char.toLower)

/-- `applyTransformation`: non-string values are returned unchanged with no
error; for strings the operation is applied, where `add_prefix`/`add_suffix`
require a string parameter in `params`.  `String.toUpper`/`String.toLower`
model `strings.ToUpper`/`strings.ToLower` (they agree on ASCII input). -/
def applyTransformation (value : DynValue) (operation : String)
    (params : List (String × PrimValue)) : GoResult DynValue :=
  match value with
  | .prim (.str strVal) =>
      if operation = "uppercase" then
        .ok (.prim (.str (goToUpper strVal)))
      else if operation = "lowercase" then
        .ok (.prim (.str (goToLower strVal)))
      else if operation = "add_prefix" then
        match lookupP params "prefix" with
        | some (.str pfx) => .ok (.prim (.str (pfx ++ strVal)))
        | _ => .error "missing or invalid prefix parameter for add_prefix operation"
      else if operation = "add_suffix" then
        match lookupP params "suffix" with
        | some (.str sfx) => .ok (.prim (.str (strVal ++ sfx)))
        | _ => .error "missing or invalid suffix parameter for add_suffix operation"
      else
        .error ("unknown transformation operation: " ++ operation)
  | v => .ok v

/-- `TransformProcessor`: applies a string operation to one field. -/
structure TransformProcessor where
  fieldName : String
  operation : String
  params : List (String × PrimValue)
deriving DecidableEq, Repr

/-- `NewTransformProcessor`: reads `field_name` (string, silently skipped
otherwise), then `operation` (a present string that is not a valid operation
is a construction error; absent or non-string is silently skipped), then
performs the unchecked type assertion `cfg.Config["params"].(map[string]interface{})`,
which panics when `params` is missing or not a map.  It performs no check of
the `prefix`/`suffix` parameters. -/
def NewTransformProcessor (cfg : GoMap) : GoResult TransformProcessor :=
  let fn := fieldStr cfg "field_name"
  match lookupD cfg "operation" with
  | some (.prim (.str s)) =>
      if validTransformOp s then
        match lookupD cfg "params" with
        | some (.map m) => .ok { fieldName := fn, operation := s, params := m }
        | _ => .panic "interface conversion: params is not map[string]interface"
      else
        .error ("invalid transformation operation: " ++ s)
  | _ =>
      match lookupD cfg "params" with
      | some (.map m) => .ok { fieldName := fn, operation := "", params := m }
      | _ => .panic "interface conversion: params is not map[string]interface"

/-- `TransformProcessor.Process`: missing configuration or a missing field
returns the record unchanged; otherwise the transformation result replaces
the field value, and a transformation error is returned as a per-record
error. -/
def TransformProcessor.process (p : TransformProcessor) (msg : Message) : ProcOut :=
  if p.fieldName = "" ∨ p.operation = "" then
    .ok (some msg)
  else
    match lookupD msg.valueFields p.fieldName with
    | none => .ok (some msg)
    | some val =>
        match applyTransformation val p.operation p.params with
        | .ok newVal =>
            .ok (some { msg with valueFields := setFieldD msg.valueFields p.fieldName newVal })
        | .error e => .error e
        | .panic e => .panic e

/-! ## enrich processor (`processors.go`) -/

/-- `EnrichProcessor`: adds one predefined field. -/
structure EnrichProcessor where
  addedFieldName : String
  addedFieldValue : Option DynValue
deriving DecidableEq, Repr

/-- `NewEnrichProcessor`: reads `added_field_name` (a string) and
`added_field_value` (any value); missing options leave the zero values and
the constructor never fails. -/
def NewEnrichProcessor (cfg : GoMap) : GoResult EnrichProcessor :=
  .ok { addedFieldName := fieldStr cfg "added_field_name"
        addedFieldValue := lookupD cfg "added_field_value" }

/-- `EnrichProcessor.Process`: with missing configuration the record passes
unchanged; otherwise `valueFields[addedFieldName]` is assigned the value. -/
def EnrichProcessor.process (p : EnrichProcessor) (msg : Message) : ProcOut :=
  match p.addedFieldValue with
  | none => .ok (some msg)
  | some v =>
      if p.addedFieldName = "" then
        .ok (some msg)
      else
        .ok (some { msg with valueFields := setFieldD msg.valueFields p.addedFieldName v })

/-! ## passthrough processor (`processors.go`) -/

/-- `PassthroughProcessor.Process`: returns the message unchanged. -/
def passthroughProcess (msg : Message) : ProcOut :=
  .ok (some msg)

/-! ## processor configuration validators (`config/config.go`) -/

/-- `availableUnits` of `TimestampReplayValidator`. -/
def availableUnitsB (u : String) : Bool :=
  u = "microseconds" || u = "milliseconds" || u = "seconds" || u = "minutes" ||
  u = "hours" || u = "days" || u = "weeks" || u = "months" || u = "years"

/-- Target-timestamp step of `TimestampReplayValidator.Validate`: when
`target_timestamp` is present, it is asserted to be a string (a panic
otherwise), parsed with `time.Parse(time.RFC3339, ·)` (`parse`), and the
parsed instant is stored back into the map under `parsed_timestamp`. -/
def timestampReplayCheckTarget (parse : String → Option Int) (cfg : GoMap) : GoResult GoMap :=
  match lookupD cfg "target_timestamp" with
  | none => .ok cfg
  | some (.prim (.str s)) =>
      match parse s with
      | none => .error "timestamp_replay: invalid target_timestamp format"
      | some t => .ok (setFieldD cfg "parsed_timestamp" (.prim (.time t)))
  | some _ => .panic "interface conversion: target_timestamp is not a string"

/-- Unit step of `TimestampReplayValidator.Validate`: `unit` must be a
string listed in `availableUnits`. -/
def timestampReplayCheckUnit (cfg cfg2 : GoMap) : GoResult GoMap :=
  match lookupD cfg "unit" with
  | some (.prim (.str u)) =>
      if availableUnitsB u then .ok cfg2 else .error "timestamp_replay: invalid unit value"
  | _ => .error "timestamp_replay: invalid unit value"

/-- Offset step of `TimestampReplayValidator.Validate`: when `offset` is
present it must be a Go `int` or `int64`, and then `unit` is checked. -/
def timestampReplayCheckOffset (cfg cfg2 : GoMap) : GoResult GoMap :=
  match lookupD cfg "offset" with
  | none => .ok cfg2
  | some (.prim (.int _)) => timestampReplayCheckUnit cfg cfg2
  | some (.prim (.int64 _)) => timestampReplayCheckUnit cfg cfg2
  | some _ => .error "offset must be an integer"

/-- `TimestampReplayValidator.Validate`: exactly one of `target_timestamp`
and `offset` must be set, `offset` requires `unit`, a present
`target_timestamp` must parse (and its parsed value is stored in the map),
a present `offset` must be an integer with a valid `unit`.  The returned map
models the in-place mutation of the config. -/
def timestampReplayValidatorValidate (parse : String → Option Int) (cfg : GoMap) : GoResult GoMap :=
  let hasTargetTimestamp := (lookupD cfg "target_timestamp").isSome
  let hasOffset := (lookupD cfg "offset").isSome
  let hasUnit := (lookupD cfg "unit").isSome
  if !hasTargetTimestamp && !hasOffset then
    .error "timestamp_replay: must provide either target_timestamp or offset but not both"
  else if hasTargetTimestamp && hasOffset then
    .error "timestamp_replay: cannot provide both target_timestamp and offset"
  else if hasOffset && !hasUnit then
    .error "timestamp_replay: unit is required when using offset"
  else
    match timestampReplayCheckTarget parse cfg with
    | .ok cfg2 => timestampReplayCheckOffset cfg cfg2
    | .error e => .error e
    | .panic e => .panic e

/-- `availableOperations` of `TransformValidator`. -/
def availableOperationsB (op : String) : Bool :=
  op = "uppercase" || op = "lowercase" || op = "add_prefix" || op = "add_suffix"

/-- Suffix step of `TransformValidator.Validate`: for `add_suffix` the
`suffix` option must be a string. -/
def transformCheckSuffix (cfg : GoMap) (op : String) : GoResult Unit :=
  if op = "add_suffix" then
    match lookupD cfg "suffix" with
    | some (.prim (.str _)) => .ok ()
    | _ => .error "transform: suffix must be a string"
  else .ok ()

/-- `TransformValidator.Validate`: `field_name` and `operation` must be
present strings, `operation` must be a known operation, `add_prefix`
requires a string `prefix` option and `add_suffix` a string `suffix`
option. -/
def transformValidatorValidate (cfg : GoMap) : GoResult Unit :=
  match lookupD cfg "field_name", lookupD cfg "operation" with
  | none, _ => .error "transform: both field_name and operation are required"
  | _, none => .error "transform: both field_name and operation are required"
  | some fieldNameVal, some operationVal =>
      match fieldNameVal with
      | .prim (.str _) =>
          match operationVal with
          | .prim (.str op) =>
              if availableOperationsB op = false then
                .error "transform: invalid operation value"
              else if (op = "add_prefix" ∧ (lookupD cfg "prefix").isNone) ∨
                      (op = "add_suffix" ∧ (lookupD cfg "suffix").isNone) then
                .error "transform: prefix or suffix is required for add_prefix or add_suffix"
              else if op = "add_prefix" then
                match lookupD cfg "prefix" with
                | some (.prim (.str _)) => transformCheckSuffix cfg op
                | _ => .error "transform: prefix must be a string"
              else transformCheckSuffix cfg op
          | _ => .error "transform: operation must be a string"
      | _ => .error "transform: field_name must be a string"

/-- `EnrichValidator.Validate`: `field_name` and `field_value` must be
present and `field_name` must be a string. -/
def enrichValidatorValidate (cfg : GoMap) : GoResult Unit :=
  match lookupD cfg "field_name", lookupD cfg "field_value" with
  | none, _ => .error "enrich: both field_name and field_value are required"
  | _, none => .error "enrich: both field_name and field_value are required"
  | some fieldNameVal, some _ =>
      match fieldNameVal with
      | .prim (.str _) => .ok ()
      | _ => .error "enrich: field_name must be a string"

/-! ## input and output configuration (`config/config.go`) -/

/-- `ValidFormats` membership. -/
def validFormatB (f : String) : Bool :=
  f = "json" || f = "avro" || f = "protobuf" || f = "string"

/-- `InputConfig`: Kafka consumer configuration.  Optional fields are
pointers in Go, modelled with `Option`. -/
structure InputConfig where
  brokers : List String
  topic : String
  consumerGroup : String
  format : String
  schemaRegistry : String
  workers : Int
  offsetReset : Option String
  enableAutoCommit : Option Bool
  autoCommitInterval : Option String
  partitions : List Int
  minBytes : Option Int
  maxBytes : Option Int
  maxWaitTime : Option Int
  sessionTimeout : Option String
  heartbeatInterval : Option String
deriving DecidableEq, Repr

/-- Heartbeat step of `InputConfig.Validate`: a present value must be a
valid duration (`pd` models `time.ParseDuration`), an absent one defaults
to `"3s"`. -/
def inputCheckHeartbeat (pd : String → Option Int) (ic : InputConfig) : GoResult InputConfig :=
  match ic.heartbeatInterval with
  | some s =>
      match pd s with
      | none => .error "invalid heartbeat_interval format"
      | some _ => .ok ic
  | none => .ok { ic with heartbeatInterval := some "3s" }

/-- Session-timeout step of `InputConfig.Validate`. -/
def inputCheckSession (pd : String → Option Int) (ic : InputConfig) : GoResult InputConfig :=
  match ic.sessionTimeout with
  | some s =>
      match pd s with
      | none => .error "invalid session_timeout format"
      | some _ => inputCheckHeartbeat pd ic
  | none => inputCheckHeartbeat pd { ic with sessionTimeout := some "10s" }

/-- Fetch-size defaulting step of `InputConfig.Validate`. -/
def inputCheckBytes (pd : String → Option Int) (ic : InputConfig) : GoResult InputConfig :=
  let ic := if ic.minBytes = none then { ic with minBytes := some 1024 } else ic
  let ic := if ic.maxBytes = none then { ic with maxBytes := some 1048576 } else ic
  let ic := if ic.maxWaitTime = none then { ic with maxWaitTime := some 500 } else ic
  inputCheckSession pd ic

/-- Auto-commit step of `InputConfig.Validate`: default `enable_auto_commit`
to false; when enabled, default or duration-check the commit interval. -/
def inputCheckAutoCommit (pd : String → Option Int) (ic : InputConfig) : GoResult InputConfig :=
  let ic := if ic.enableAutoCommit = none then { ic with enableAutoCommit := some false } else ic
  if ic.enableAutoCommit = some true then
    match ic.autoCommitInterval with
    | none => inputCheckBytes pd { ic with autoCommitInterval := some "5s" }
    | some s =>
        match pd s with
        | none => .error "invalid auto_commit_interval"
        | some _ => inputCheckBytes pd ic
  else inputCheckBytes pd ic

/-- Offset-reset step of `InputConfig.Validate`: default to `"latest"`,
reject anything other than `"earliest"`/`"latest"`. -/
def inputCheckOffsetReset (pd : String → Option Int) (ic : InputConfig) : GoResult InputConfig :=
  match ic.offsetReset with
  | none => inputCheckAutoCommit pd { ic with offsetReset := some "latest" }
  | some v =>
      if v = "earliest" ∨ v = "latest" then inputCheckAutoCommit pd ic
      else .error "offset_reset must be earliest or latest"

/-- Format step of `InputConfig.Validate`: the format must be supported and
`avro`/`protobuf` require a schema registry URL; then workers default to 1
when unset or invalid. -/
def inputCheckFormat (pd : String → Option Int) (ic : InputConfig) : GoResult InputConfig :=
  if !(validFormatB ic.format) then
    .error "unsupported format"
  else if (ic.format = "avro" ∨ ic.format = "protobuf") ∧ ic.schemaRegistry = "" then
    .error "schema_registry_url is required for AVRO and PROTOBUF formats"
  else
    inputCheckOffsetReset pd (if ic.workers ≤ 0 then { ic with workers := 1 } else ic)

/-- `InputConfig.Validate`: brokers and topic are required, the consumer
group defaults, and the remaining checks run in the order of the source.
The returned config models the in-place defaulting mutations. -/
def InputConfig.validate (pd : String → Option Int) (ic : InputConfig) : GoResult InputConfig :=
  if ic.brokers.isEmpty then
    .error "brokers is required and cannot be empty"
  else if ic.topic = "" then
    .error "topic is required and cannot be empty"
  else
    inputCheckFormat pd
      (if ic.consumerGroup = "" then { ic with consumerGroup := "default-group" } else ic)

/-- `OutputConfig`: Kafka producer configuration. -/
structure OutputConfig where
  type : String
  brokers : List String
  topic : String
  workers : Int
  format : String
  schemaRegistry : String
  partitions : List Int
  batchSize : Option Int
  compression : Option String
  autoCreateTopic : Option Bool
  requestTimeout : Option String
  retryBackoff : Option String
  maxRetries : Option Int
deriving DecidableEq, Repr

/-- Tail of `OutputConfig.Validate`: an invalid `request_timeout` is
replaced by `"10s"` without error, and `max_retries` defaults to 3. -/
def outputCheckTimeout (pd : String → Option Int) (oc : OutputConfig) : GoResult OutputConfig :=
  let oc :=
    match oc.requestTimeout with
    | some s => (match pd s with | none => { oc with requestTimeout := some "10s" } | some _ => oc)
    | none => { oc with requestTimeout := some "10s" }
  let oc := if oc.maxRetries = none then { oc with maxRetries := some 3 } else oc
  .ok oc

/-- Retry-backoff step of `OutputConfig.Validate`: a present value must be
a valid duration, an absent one defaults to `"2s"`; `auto_create_topic`
defaults to false first. -/
def outputCheckRetry (pd : String → Option Int) (oc : OutputConfig) : GoResult OutputConfig :=
  let oc := if oc.autoCreateTopic = none then { oc with autoCreateTopic := some false } else oc
  match oc.retryBackoff with
  | some s =>
      match pd s with
      | none => .error "invalid retry_backoff"
      | some _ => outputCheckTimeout pd oc
  | none => outputCheckTimeout pd { oc with retryBackoff := some "2s" }

/-- Compression step of `OutputConfig.Validate`: default `"none"`, reject
unknown algorithms. -/
def outputCheckCompression (pd : String → Option Int) (oc : OutputConfig) : GoResult OutputConfig :=
  match oc.compression with
  | none => outputCheckRetry pd { oc with compression := some "none" }
  | some c =>
      if c = "none" ∨ c = "gzip" ∨ c = "snappy" ∨ c = "lz4" ∨ c = "zstd" then
        outputCheckRetry pd oc
      else .error "compression must be one of: none, gzip, snappy, lz4, zstd"

/-- Batch-size step of `OutputConfig.Validate`: out-of-range or missing
values fall back to the default 2000 without error. -/
def outputCheckBatch (pd : String → Option Int) (oc : OutputConfig) : GoResult OutputConfig :=
  let oc :=
    match oc.batchSize with
    | none => { oc with batchSize := some 2000 }
    | some b => if b ≤ 0 ∨ b > 100000 then { oc with batchSize := some 2000 } else oc
  outputCheckCompression pd oc

/-- Format step of `OutputConfig.Validate`: supported format required,
`avro`/`protobuf` require a schema registry URL. -/
def outputCheckFormat (pd : String → Option Int) (oc : OutputConfig) : GoResult OutputConfig :=
  if !(validFormatB oc.format) then
    .error "unsupported format"
  else if (oc.format = "avro" ∨ oc.format = "protobuf") ∧ oc.schemaRegistry = "" then
    .error "schema_registry_url is required for AVRO and PROTOBUF formats"
  else
    outputCheckBatch pd oc

/-- `OutputConfig.Validate`: the type must be `"kafka"`, brokers and topic
are required, workers default to 1, and the remaining checks run in the
order of the source. -/
def OutputConfig.validate (pd : String → Option Int) (oc : OutputConfig) : GoResult OutputConfig :=
  if oc.type ≠ "kafka" then
    .error "unsupported output type"
  else if oc.brokers.isEmpty then
    .error "brokers is required and cannot be empty"
  else if oc.topic = "" then
    .error "topic is required and cannot be empty"
  else
    outputCheckFormat pd (if oc.workers ≤ 0 then { oc with workers := 1 } else oc)

/-! ## map lemmas -/

/-- Go map assignment leaves every other key unchanged. -/
theorem lookupD_setFieldD_ne (l : GoMap) (k k' : String) (v : DynValue) (h : k' ≠ k) :
    lookupD (setFieldD l k v) k' = lookupD l k' := by
  induction l with
  | nil => simp [setFieldD, lookupD, Ne.symm h]
  | cons hd tl ih =>
    obtain ⟨k0, v0⟩ := hd
    by_cases hk : k0 = k
    · subst hk
      simp [setFieldD, lookupD, Ne.symm h]
    · simp only [setFieldD, if_neg hk]
      by_cases hk2 : k0 = k'
      · simp [lookupD, hk2]
      · simp [lookupD, hk2, ih]

/-- Assigning a key the value it already holds leaves the map unchanged. -/
theorem setFieldD_self (l : GoMap) (k : String) (v : DynValue) (h : lookupD l k = some v) :
    setFieldD l k v = l := by
  induction l with
  | nil => simp [lookupD] at h
  | cons hd tl ih =>
    obtain ⟨k0, v0⟩ := hd
    by_cases hk : k0 = k
    · subst hk
      simp [lookupD] at h
      subst h
      simp [setFieldD]
    · simp only [lookupD, if_neg hk] at h
      simp [setFieldD, hk, ih h]

/-! ## sample data used by the claim instances -/

/-- A record with empty working views, as built by the repository's test
helper `createTestMessage`. -/
def sampleMsg : Message :=
  { key := [], value := [], topic := "test-topic", partition := 0, offset := 0,
    timestamp := 0, headers := [], keyFields := [], valueFields := [] }

/-- A stand-in for `time.Parse(time.RFC3339, ·)` that parses the one valid
ISO-8601 string used in the examples. -/
def rfc3339SampleParse : String → Option Int :=
  fun s => if s = "2026-01-23T10:00:00Z" then some 1769162400000000000 else none

/-- A stand-in parser that accepts nothing (never consulted in the claims
that use it). -/
def noParse : String → Option Int := fun _ => none

/-! ## claim theorems -/

/-- Configuration of claim C1: a timestamp_replay option map that sets
`target_timestamp` (the key used by the spec and by
`TimestampReplayValidator`). -/
def c1Cfg : GoMap := [("target_timestamp", .prim (.str "2026-01-23T10:00:00Z"))]

/-- C1, failing input: the validator accepts the key `target_timestamp`
(and pre-parses it), but `NewTimestampReplayProcessor` looks up the key
`target_timestamps`, finds nothing, and the resulting processor returns
every record unchanged with no error instead of overwriting its
timestamp. -/
theorem timestampReplay_target_key_ignored :
    (timestampReplayValidatorValidate rfc3339SampleParse c1Cfg).isOk = true ∧
    NewTimestampReplayProcessor c1Cfg =
      .ok { targetTimestamps := none, offset := none, unit := none } ∧
    ∀ (r : Message),
      TimestampReplayProcessor.process rfc3339SampleParse
        { targetTimestamps := none, offset := none, unit := none } r = .ok (some r) :=
  ⟨rfl, rfl, fun _ => rfl⟩

/-- Configuration of claim C3: an enrich option map using the keys
`field_name`/`field_value` required by `EnrichValidator`. -/
def c3Cfg : GoMap := [("field_name", .prim (.str "env")), ("field_value", .prim (.str "prod"))]

/-- C3, failing input: `EnrichValidator` accepts the keys
`field_name`/`field_value`, but `NewEnrichProcessor` reads
`added_field_name`/`added_field_value`, so the validated configuration
produces a processor that leaves the record unchanged and never sets
`valueFields["env"]`; construction also never fails, for any option map. -/
theorem enrich_validated_config_ignored :
    enrichValidatorValidate c3Cfg = .ok () ∧
    NewEnrichProcessor c3Cfg = .ok { addedFieldName := "", addedFieldValue := none } ∧
    EnrichProcessor.process { addedFieldName := "", addedFieldValue := none } sampleMsg
      = .ok (some sampleMsg) ∧
    lookupD sampleMsg.valueFields "env" = none ∧
    ∀ (cfg : GoMap), (NewEnrichProcessor cfg).isOk = true :=
  ⟨rfl, rfl, rfl, rfl, fun _ => rfl⟩

/-- Configuration of claim C4: a timestamp_replay option map with an
integer offset and the unit `days`, which `availableUnits` lists as
valid. -/
def c4Cfg : GoMap := [("offset", .prim (.int64 1)), ("unit", .prim (.str "days"))]

/-- C4, failing input: `TimestampReplayValidator` accepts `offset=1` with
`unit="days"` (its `availableUnits` set runs from microseconds to years),
but `TimestampReplayProcessor.Process` only implements seconds, minutes and
hours and returns the error `invalid time unit for offset` for the
validated unit, leaving the record's timestamp unchanged. -/
theorem timestampReplay_days_unit_runtime_error :
    timestampReplayValidatorValidate noParse c4Cfg = .ok c4Cfg ∧
    NewTimestampReplayProcessor c4Cfg =
      .ok { targetTimestamps := none, offset := some 1, unit := some "days" } ∧
    TimestampReplayProcessor.process noParse
      { targetTimestamps := none, offset := some 1, unit := some "days" } sampleMsg
      = .error "invalid time unit for offset" :=
  ⟨rfl, rfl, rfl⟩

/-- C8: the passthrough processor returns every record exactly as it
received it, with no error. -/
theorem passthrough_returns_record_unchanged (r : Message) :
    passthroughProcess r = .ok (some r) :=
  rfl

/-- Configuration of claim C2: a transform option map with operation
`add_prefix`, a present (empty) `params` map, and no prefix parameter
anywhere. -/
def c2Cfg : GoMap :=
  [("field_name", .prim (.str "message")),
   ("operation", .prim (.str "add_prefix")),
   ("params", .map [])]

/-- A record whose `message` field is the string "hi". -/
def c2Msg : Message := { sampleMsg with valueFields := [("message", .prim (.str "hi"))] }

/-- C2, counterexample: constructing a transform processor with operation
`add_prefix` and no `prefix` parameter does NOT fail at construction time —
`NewTransformProcessor` returns the processor with a nil error — and the
missing parameter is deferred to a per-record processing error. -/
theorem transform_add_prefix_construction_succeeds :
    NewTransformProcessor c2Cfg =
      .ok { fieldName := "message", operation := "add_prefix", params := [] } ∧
    (NewTransformProcessor c2Cfg).isError = false ∧
    TransformProcessor.process
      { fieldName := "message", operation := "add_prefix", params := [] } c2Msg
      = .error "missing or invalid prefix parameter for add_prefix operation" :=
  ⟨rfl, rfl, rfl⟩

/-- C2, amended: the missing `prefix`/`suffix` parameter is rejected with an
error by configuration validation (`TransformValidator.Validate`) at load
time, for every such option map; the constructor `NewTransformProcessor`
itself performs no such check — it succeeds and the missing parameter
surfaces as a per-record processing error. -/
theorem transform_missing_param_rejected_at_validation :
    (∀ cfg : GoMap, lookupD cfg "operation" = some (.prim (.str "add_prefix")) →
       lookupD cfg "prefix" = none → (transformValidatorValidate cfg).isError = true) ∧
    (∀ cfg : GoMap, lookupD cfg "operation" = some (.prim (.str "add_suffix")) →
       lookupD cfg "suffix" = none → (transformValidatorValidate cfg).isError = true) ∧
    (NewTransformProcessor c2Cfg).isOk = true ∧
    (TransformProcessor.process
      { fieldName := "message", operation := "add_prefix", params := [] } c2Msg).isError
      = true := by
  refine ⟨?_, ?_, rfl, rfl⟩
  · intro cfg hop hpx
    cases hfn : lookupD cfg "field_name" with
    | none => simp [transformValidatorValidate, hfn, hop, GoResult.isError]
    | some v =>
      cases v with
      | map m => simp [transformValidatorValidate, hfn, hop, GoResult.isError]
      | prim p =>
        cases p <;>
          simp [transformValidatorValidate, hfn, hop, hpx, GoResult.isError,
            availableOperationsB]
  · intro cfg hop hsx
    cases hfn : lookupD cfg "field_name" with
    | none => simp [transformValidatorValidate, hfn, hop, GoResult.isError]
    | some v =>
      cases v with
      | map m => simp [transformValidatorValidate, hfn, hop, GoResult.isError]
      | prim p =>
        cases p <;>
          simp [transformValidatorValidate, hfn, hop, hsx, GoResult.isError,
            availableOperationsB]

/-- C2, witness: the validator rejects the concrete add_prefix
configuration without a prefix while the processor defers the failure to
record processing. -/
theorem transform_missing_param_rejected_at_validation_witness :
    (transformValidatorValidate c2Cfg).isError = true ∧
    (NewTransformProcessor c2Cfg).isOk = true :=
  ⟨transform_missing_param_rejected_at_validation.1 c2Cfg rfl rfl,
   transform_missing_param_rejected_at_validation.2.2.1⟩

/-- C5: a drop processor constructed with non-empty string options returns
the drop sentinel exactly when the configured field exists, is a string and
equals the filter criteria, and otherwise returns the record unchanged with
no error. -/
theorem drop_matches_iff (fn fc : String) (hfn : fn ≠ "") (hfc : fc ≠ "") (r : Message) :
    NewDropProcessor [("field_name", .prim (.str fn)), ("filter_criteria", .prim (.str fc))]
      = .ok { filterCriteria := fc, fieldName := fn } ∧
    DropProcessor.process { filterCriteria := fc, fieldName := fn } r =
      (if lookupD r.valueFields fn = some (.prim (.str fc)) then .ok none else .ok (some r)) := by
  refine ⟨rfl, ?_⟩
  unfold DropProcessor.process
  rw [if_pos ⟨hfn, hfc⟩]
  cases hl : lookupD r.valueFields fn with
  | none => simp [hl]
  | some v =>
    cases v with
    | map m => simp [hl]
    | prim p =>
      cases p with
      | str s =>
        by_cases hs : s = fc
        · subst hs
          simp
        · simp [hs, Ne.symm hs]
      | int n => simp
      | int64 n => simp
      | bool b => simp
      | time t => simp

/-- A record whose `status` field is the string "inactive". -/
def c5Msg : Message := { sampleMsg with valueFields := [("status", .prim (.str "inactive"))] }

/-- C5, witness at the configuration of the spec's example. -/
theorem drop_matches_iff_witness :
    NewDropProcessor
        [("field_name", .prim (.str "status")), ("filter_criteria", .prim (.str "inactive"))]
      = .ok { filterCriteria := "inactive", fieldName := "status" } ∧
    DropProcessor.process { filterCriteria := "inactive", fieldName := "status" } c5Msg =
      (if lookupD c5Msg.valueFields "status" = some (.prim (.str "inactive")) then .ok none
       else .ok (some c5Msg)) :=
  drop_matches_iff "status" "inactive" (by decide) (by decide) c5Msg

/-- A record whose `message` field is the string "hello world". -/
def c6Msg : Message :=
  { sampleMsg with valueFields := [("message", .prim (.str "hello world"))] }

/-- C6: for a transform processor with a configured field name and a valid
operation, a missing field or a non-string value leaves the record
unchanged with no error; a string value is replaced by the result of the
operation; in particular uppercase turns "hello world" into
"HELLO WORLD". -/
theorem transform_string_ops (fn op : String) (ps : List (String × PrimValue))
    (hfn : fn ≠ "") (hop : validTransformOp op = true) (r : Message) :
    (lookupD r.valueFields fn = none →
       TransformProcessor.process { fieldName := fn, operation := op, params := ps } r
         = .ok (some r)) ∧
    (∀ v, lookupD r.valueFields fn = some v → (∀ s, v ≠ .prim (.str s)) →
       TransformProcessor.process { fieldName := fn, operation := op, params := ps } r
         = .ok (some r)) ∧
    (∀ s w, lookupD r.valueFields fn = some (.prim (.str s)) →
       applyTransformation (.prim (.str s)) op ps = .ok w →
       TransformProcessor.process { fieldName := fn, operation := op, params := ps } r
         = .ok (some { r with valueFields := setFieldD r.valueFields fn w })) ∧
    TransformProcessor.process { fieldName := "message", operation := "uppercase", params := [] }
        c6Msg
      = .ok (some { c6Msg with valueFields := [("message", .prim (.str "HELLO WORLD"))] }) := by
  have hop' : op ≠ "" := by
    rintro rfl
    simp [validTransformOp] at hop
  have hguard : ¬(fn = "" ∨ op = "") := by
    rintro (h | h)
    · exact hfn h
    · exact hop' h
  refine ⟨?_, ?_, ?_, by decide⟩
  · intro hl
    unfold TransformProcessor.process
    rw [if_neg hguard]
    simp [hl]
  · intro v hl hv
    unfold TransformProcessor.process
    rw [if_neg hguard]
    have happ : applyTransformation v op ps = .ok v := by
      cases v with
      | map m => rfl
      | prim p =>
        cases p with
        | str s => exact absurd rfl (hv s)
        | int n => rfl
        | int64 n => rfl
        | bool b => rfl
        | time t => rfl
    simp [hl, happ, setFieldD_self r.valueFields fn v hl]
  · intro s w hl ha
    unfold TransformProcessor.process
    rw [if_neg hguard]
    simp [hl, ha]

/-- C6, witness at the spec's uppercase example. -/
theorem transform_string_ops_witness :
    TransformProcessor.process { fieldName := "message", operation := "uppercase", params := [] }
        c6Msg
      = .ok (some { c6Msg with valueFields := [("message", .prim (.str "HELLO WORLD"))] }) :=
  (transform_string_ops "message" "uppercase" [] (by decide) (by decide) c6Msg).2.2.2

/-- C9: whenever a transform processor succeeds on a record, every record
component except the configured entry of `valueFields` is unchanged. -/
theorem transform_frame (p : TransformProcessor) (r r' : Message)
    (h : p.process r = .ok (some r')) :
    r'.key = r.key ∧ r'.value = r.value ∧ r'.topic = r.topic ∧
    r'.partition = r.partition ∧ r'.offset = r.offset ∧ r'.timestamp = r.timestamp ∧
    r'.headers = r.headers ∧ r'.keyFields = r.keyFields ∧
    ∀ k, k ≠ p.fieldName → lookupD r'.valueFields k = lookupD r.valueFields k := by
  unfold TransformProcessor.process at h
  split at h
  · obtain rfl : r = r' := by simpa using h
    exact ⟨rfl, rfl, rfl, rfl, rfl, rfl, rfl, rfl, fun _ _ => rfl⟩
  · split at h
    · obtain rfl : r = r' := by simpa using h
      exact ⟨rfl, rfl, rfl, rfl, rfl, rfl, rfl, rfl, fun _ _ => rfl⟩
    · split at h
      · rename_i w ha
        obtain rfl : r' = { r with valueFields := setFieldD r.valueFields p.fieldName w } := by
          have h2 := h
          simp at h2
          exact h2.symm
        refine ⟨rfl, rfl, rfl, rfl, rfl, rfl, rfl, rfl, fun k hk => ?_⟩
        exact lookupD_setFieldD_ne r.valueFields p.fieldName k w hk
      · simp at h
      · simp at h

/-- The transform processor of the C9 witness. -/
def c9Proc : TransformProcessor := { fieldName := "message", operation := "uppercase", params := [] }

/-- Input record of the C9 witness. -/
def c9Msg : Message :=
  { sampleMsg with valueFields := [("message", .prim (.str "hi")), ("other", .prim (.int 1))] }

/-- Output record of the C9 witness. -/
def c9Msg2 : Message :=
  { sampleMsg with valueFields := [("message", .prim (.str "HI")), ("other", .prim (.int 1))] }

/-- C9, witness: a successful uppercase transformation keeps the timestamp
and the unrelated `other` entry of `valueFields`. -/
theorem transform_frame_witness :
    c9Msg2.timestamp = c9Msg.timestamp ∧
    lookupD c9Msg2.valueFields "other" = lookupD c9Msg.valueFields "other" :=
  ⟨(transform_frame c9Proc c9Msg c9Msg2 (by decide)).2.2.2.2.2.1,
   (transform_frame c9Proc c9Msg c9Msg2 (by decide)).2.2.2.2.2.2.2.2 "other" (by decide)⟩

/-- C10: a drop processor whose configuration leaves `field_name` or
`filter_criteria` missing, non-string or empty is constructed without error
and never drops: it returns every record unchanged with no error. -/
theorem drop_unconfigured_never_drops (cfg : GoMap)
    (h : fieldStr cfg "field_name" = "" ∨ fieldStr cfg "filter_criteria" = "") :
    NewDropProcessor cfg =
      .ok { filterCriteria := fieldStr cfg "filter_criteria"
            fieldName := fieldStr cfg "field_name" } ∧
    ∀ (r : Message),
      DropProcessor.process
        { filterCriteria := fieldStr cfg "filter_criteria"
          fieldName := fieldStr cfg "field_name" } r = .ok (some r) := by
  refine ⟨rfl, fun r => ?_⟩
  unfold DropProcessor.process
  rw [if_neg]
  rintro ⟨h1, h2⟩
  cases h with
  | inl hh => exact h1 hh
  | inr hh => exact h2 hh

/-- Configuration of the C10 witness: `filter_criteria` missing. -/
def c10Cfg : GoMap := [("field_name", .prim (.str "status"))]

/-- C10, witness: with a missing `filter_criteria` even a record whose
field would otherwise match is kept. -/
theorem drop_unconfigured_never_drops_witness :
    DropProcessor.process
      { filterCriteria := fieldStr c10Cfg "filter_criteria"
        fieldName := fieldStr c10Cfg "field_name" } c5Msg = .ok (some c5Msg) :=
  (drop_unconfigured_never_drops c10Cfg (by decide)).2 c5Msg

/-- C7: configuration validation is fail-fast — every input configuration
with an empty topic is rejected with an error, and every output
configuration whose format is avro or protobuf with an empty schema
registry URL is rejected with an error. -/
theorem config_validation_failfast :
    (∀ (pd : String → Option Int) (ic : InputConfig), ic.topic = "" →
       (InputConfig.validate pd ic).isError = true) ∧
    (∀ (pd : String → Option Int) (oc : OutputConfig),
       (oc.format = "avro" ∨ oc.format = "protobuf") → oc.schemaRegistry = "" →
       (OutputConfig.validate pd oc).isError = true) := by
  constructor
  · intro pd ic ht
    unfold InputConfig.validate
    split
    · rfl
    · rfl
  · intro pd oc hf hs
    unfold OutputConfig.validate
    split
    · rfl
    · split
      · rfl
      · split
        · rfl
        · split
          · unfold outputCheckFormat
            split
            · rfl
            · split
              · rfl
              · rename_i hcond
                exact (hcond ⟨hf, hs⟩).elim
          · unfold outputCheckFormat
            split
            · rfl
            · split
              · rfl
              · rename_i hcond
                exact (hcond ⟨hf, hs⟩).elim

/-- Input configuration of the C7 witness: empty topic. -/
def c7In : InputConfig :=
  { brokers := ["localhost:9092"], topic := "", consumerGroup := "g", format := "json",
    schemaRegistry := "", workers := 1, offsetReset := none, enableAutoCommit := none,
    autoCommitInterval := none, partitions := [], minBytes := none, maxBytes := none,
    maxWaitTime := none, sessionTimeout := none, heartbeatInterval := none }

/-- Output configuration of the C7 witness: avro format without a schema
registry URL. -/
def c7Out : OutputConfig :=
  { type := "kafka", brokers := ["localhost:9092"], topic := "out", workers := 1,
    format := "avro", schemaRegistry := "", partitions := [], batchSize := none,
    compression := none, autoCreateTopic := none, requestTimeout := none,
    retryBackoff := none, maxRetries := none }

/-- C7, witness at concrete invalid configurations. -/
theorem config_validation_failfast_witness :
    (InputConfig.validate noParse c7In).isError = true ∧
    (OutputConfig.validate noParse c7Out).isError = true :=
  ⟨config_validation_failfast.1 noParse c7In rfl,
   config_validation_failfast.2 noParse c7Out (Or.inl rfl) rfl⟩

end EtelGo
